import Mathlib

/-!
Shallow embedding of `tools/qnn/convert_kokoro_static.py`, the static-shape
ONNX graph rewriter for Kokoro TTS, together with theorems settling the
specification claims about it.

The data model mirrors the ONNX protobuf objects the script touches:
`Dim` is a shape dimension (proto3 oneof of `dim_value : int64` and
`dim_param : string`, possibly unset), `ValueInfo` a graph-level input or
output declaration, `Node` an operator node, `Tensor` an initializer
(constant tensor).  Float payloads occurring in this script are all exact
zeros, so raw float data is represented by integer values.
-/

/-- A shape dimension: the proto3 oneof over `dim_value` / `dim_param`.
`unset` is a dimension with neither field set (fully dynamic). -/
inductive Dim where
  | value (n : Int)
  | param (s : String)
  | unset
deriving DecidableEq, Repr

/-- Protobuf accessor semantics: `d.dim_value` returns 0 when the oneof
holds no integer. -/
def Dim.dim_value : Dim → Int
  | .value n => n
  | _ => 0

/-- Protobuf accessor semantics: `d.dim_param` returns the empty string when
the oneof holds no name. -/
def Dim.dim_param : Dim → String
  | .param s => s
  | _ => ""

/-- The `type.tensor_type` part of a value info: element type code and the
dimension list of `shape.dim`. -/
structure TensorTypeInfo where
  elem_type : Nat
  shape : List Dim
deriving DecidableEq, Repr

/-- A graph-level input or output declaration (ONNX `ValueInfoProto`). -/
structure ValueInfo where
  name : String
  ttype : TensorTypeInfo
deriving DecidableEq, Repr

/-- An operator node (ONNX `NodeProto`); `attrs` holds the integer
attributes such as the `axis` of a `Concat`. -/
structure Node where
  op_type : String
  input : List String
  output : List String
  attrs : List (String × Int) := []
deriving DecidableEq, Repr

/-- An initializer: a named constant tensor (ONNX `TensorProto`).
`int64_data` holds int64 payloads, `float_data` float payloads (all float
payloads made by this script are zeros, represented exactly). -/
structure Tensor where
  name : String
  elem_type : Nat
  dims : List Nat
  int64_data : List Int := []
  float_data : List Int := []
deriving DecidableEq, Repr

/-- The graph: inputs, outputs, nodes, initializers (ONNX `GraphProto`). -/
structure Graph where
  input : List ValueInfo
  output : List ValueInfo
  node : List Node
  initializer : List Tensor
deriving DecidableEq, Repr

/-- The model wrapper (ONNX `ModelProto`). -/
structure Model where
  graph : Graph
  ir_version : Int
  opset : List Int
deriving DecidableEq, Repr

/-- One entry of a reported shape in `analyze_model`: Python builds a
heterogeneous list of ints and strings; `lit (-1)` stands for
unknown/dynamic. -/
inductive ShapeEntry where
  | lit (n : Int)
  | named (s : String)
deriving DecidableEq, Repr

/-- The per-dimension report of `analyze_model`: `if d.dim_value: ...
elif d.dim_param: ... else: -1` (Python truthiness: nonzero int, nonempty
string). -/
def reportDim (d : Dim) : ShapeEntry :=
  if d.dim_value ≠ 0 then .lit d.dim_value
  else if d.dim_param ≠ "" then .named d.dim_param
  else .lit (-1)

/-- The shape list reported for one tensor by `analyze_model`. -/
def reportShape (dims : List Dim) : List ShapeEntry :=
  dims.map reportDim

/-- The `type_map.get(...)` lookup of `analyze_model`: known element type
codes map to their names, others to `str(code)`. -/
def typeName (t : Nat) : String :=
  if t = 1 then "FLOAT"
  else if t = 6 then "INT32"
  else if t = 7 then "INT64"
  else if t = 9 then "BOOL"
  else if t = 10 then "FLOAT16"
  else toString t

/-- The record `analyze_model` builds for one input or output. -/
structure TensorReport where
  shape : List ShapeEntry
  dtype : String
deriving DecidableEq, Repr

/-- The `info` dictionary returned by `analyze_model` (dicts keyed by
tensor name, in graph order, modelled as association lists). -/
structure ModelInfo where
  inputs : List (String × TensorReport)
  outputs : List (String × TensorReport)
  opset : List Int
  ir_version : Int
deriving DecidableEq, Repr

/-- The report for one value info in `analyze_model`. -/
def reportValueInfo (v : ValueInfo) : String × TensorReport :=
  (v.name, { shape := reportShape v.ttype.shape, dtype := typeName v.ttype.elem_type })

/-- `analyze_model`: the pure content of the analysis (the Python function
also loads the model from disk and prints; here it is given the model). -/
def analyze_model (m : Model) : ModelInfo :=
  { inputs := m.graph.input.map reportValueInfo
    outputs := m.graph.output.map reportValueInfo
    opset := m.opset
    ir_version := m.ir_version }

/-- The input-name selector set of `fix_input_shapes`:
`inp.name in ["input_ids", "tokens"]`. -/
def isSeqInput (s : String) : Bool :=
  s == "input_ids" || s == "tokens"

/-- The output-name selector set used by `fix_output_shapes` and
`add_output_padding`: `name in ["audio", "waveform"]`. -/
def isAudioOutput (s : String) : Bool :=
  s == "audio" || s == "waveform"

/-- The per-input action of `fix_input_shapes`: a matched input has all its
dims popped and `[1, seq_length]` added; others are untouched. -/
def fixInp (L : Nat) (v : ValueInfo) : ValueInfo :=
  if isSeqInput v.name then
    { v with ttype := { v.ttype with shape := [Dim.value 1, Dim.value (L : Int)] } }
  else v

/-- `fix_input_shapes(model, seq_length)`. -/
def fix_input_shapes (m : Model) (L : Nat) : Model :=
  { m with graph := { m.graph with input := m.graph.input.map (fixInp L) } }

/-- The per-output action of `fix_output_shapes`: a matched output has all
its dims popped and the single dim `[max_audio_samples]` added. -/
def declFixOut (M : Nat) (v : ValueInfo) : ValueInfo :=
  if isAudioOutput v.name then
    { v with ttype := { v.ttype with shape := [Dim.value (M : Int)] } }
  else v

/-- `fix_output_shapes(model, max_audio_samples)` (declarative mode). -/
def fix_output_shapes (m : Model) (M : Nat) : Model :=
  { m with graph := { m.graph with output := m.graph.output.map (declFixOut M) } }

/-- `[out.name for out in model.graph.output if out.name in ["audio", "waveform"]]`. -/
def selOutputNames (g : Graph) : List String :=
  (g.output.filter (fun o => isAudioOutput o.name)).map ValueInfo.name

/-- `original_output in node.output`. -/
def hasOutput (orig : String) (n : Node) : Bool :=
  decide (orig ∈ n.output)

/-- `f"{original_output}_unpadded"`. -/
def intermediateName (orig : String) : String := orig ++ "_unpadded"

/-- `f"{original_output}_concat"`. -/
def concatName (orig : String) : String := orig ++ "_concat"

/-- The in-place rename of the producer node's matching output slots:
`for i, out in enumerate(producer_node.output): if out == original_output:
producer_node.output[i] = intermediate_output`. -/
def renameOutputs (orig interm : String) (n : Node) : Node :=
  { n with output := n.output.map (fun o => if o = orig then interm else o) }

/-- The node list after the producer rename: Python finds the first node
whose outputs contain `orig` and mutates that object in place. -/
def renameFirstProducer (orig interm : String) : List Node → List Node
  | [] => []
  | n :: rest =>
    if hasOutput orig n then renameOutputs orig interm n :: rest
    else n :: renameFirstProducer orig interm rest

/-- The zeros initializer `np.zeros(max_audio_samples, dtype=np.float32)`
named `padding_zeros` (element type 1 = FLOAT). -/
def paddingZeros (M : Nat) : Tensor :=
  { name := "padding_zeros", elem_type := 1, dims := [M],
    float_data := List.replicate M 0 }

/-- The slice start bound `np.array([0], dtype=np.int64)` (type 7 = INT64). -/
def sliceStarts : Tensor :=
  { name := "slice_starts", elem_type := 7, dims := [1], int64_data := [0] }

/-- The slice end bound `np.array([max_audio_samples], dtype=np.int64)`. -/
def sliceEnds (M : Nat) : Tensor :=
  { name := "slice_ends", elem_type := 7, dims := [1], int64_data := [(M : Int)] }

/-- The slice axis `np.array([0], dtype=np.int64)`. -/
def sliceAxes : Tensor :=
  { name := "slice_axes", elem_type := 7, dims := [1], int64_data := [0] }

/-- The appended `Concat` node: inputs `[intermediate_output,
"padding_zeros"]`, output the `_concat` tensor, attribute `axis=0`. -/
def concatNode (orig : String) : Node :=
  { op_type := "Concat",
    input := [intermediateName orig, "padding_zeros"],
    output := [concatName orig],
    attrs := [("axis", 0)] }

/-- The appended `Slice` node: inputs `[concat_output, "slice_starts",
"slice_ends", "slice_axes"]`, output the original output name. -/
def sliceNode (orig : String) : Node :=
  { op_type := "Slice",
    input := [concatName orig, "slice_starts", "slice_ends", "slice_axes"],
    output := [orig] }

/-- The final output-declaration update of `add_output_padding`: every
graph output named `orig` has its dims replaced by the single literal `M`. -/
def setOutputShape (orig : String) (M : Nat) (v : ValueInfo) : ValueInfo :=
  if v.name = orig then
    { v with ttype := { v.ttype with shape := [Dim.value (M : Int)] } }
  else v

/-- `add_output_padding(model, max_audio_samples)` (structural mode).
If no graph output matches the selector set, or no node produces the first
matching name, the Python function prints a warning and returns the model
unchanged; otherwise it renames the producer's matching output slots to the
intermediate name, appends the `padding_zeros` initializer, a `Concat`
node, the three slice-bound initializers and a `Slice` node, and sets the
declared output shape to `[M]`. -/
def add_output_padding (m : Model) (M : Nat) : Model :=
  match (selOutputNames m.graph).head? with
  | none => m
  | some orig =>
    match m.graph.node.find? (hasOutput orig) with
    | none => m
    | some _ =>
      { m with graph :=
        { m.graph with
          node := renameFirstProducer orig (intermediateName orig) m.graph.node
                    ++ [concatNode orig, sliceNode orig]
          initializer := m.graph.initializer
                    ++ [paddingZeros M, sliceStarts, sliceEnds M, sliceAxes]
          output := m.graph.output.map (setOutputShape orig M) } }

/-- The mutation stage of `main` (lines 296–302): fix inputs, then either
structural or declarative output rewrite depending on `--add_padding`. -/
def transform (m : Model) (L M : Nat) (pad : Bool) : Model :=
  let m1 := fix_input_shapes m L
  if pad then add_output_padding m1 M else fix_output_shapes m1 M

/-- The decision tail of `main`: returns the model written to disk (if
any) and the Python return value of `main` (`none` models Python `None`).
`check` stands for `validate_model`, whose core is the external
`onnx.checker.check_model`.  With `--analyze_only` nothing is mutated or
written; with no `--output` the run returns 1 before mutating; otherwise
the transformed model is written iff `check` accepts it, and a rejected
model yields return value 1 with no write. -/
def main_run (analyze_only has_output : Bool) (check : Model → Bool)
    (m : Model) (L M : Nat) (pad : Bool) : Option Model × Option Nat :=
  if analyze_only then (none, none)
  else if has_output = false then (none, some 1)
  else
    let m2 := transform m L M pad
    if check m2 then (some m2, none) else (none, some 1)

/-! ### Concrete models used by witnesses and counterexamples -/

/-- A token input with a symbolic sequence dimension. -/
def wTokensInput : ValueInfo :=
  { name := "tokens", ttype := { elem_type := 7, shape := [Dim.param "seq"] } }

/-- An input not matched by the selector set. -/
def wOtherInput : ValueInfo :=
  { name := "style", ttype := { elem_type := 1, shape := [Dim.value 256] } }

/-- An audio output with a fully dynamic dimension. -/
def wAudioOutput : ValueInfo :=
  { name := "audio", ttype := { elem_type := 1, shape := [Dim.unset] } }

/-- The node producing the audio output. -/
def wGenNode : Node :=
  { op_type := "Gen", input := ["tokens", "style"], output := ["audio"] }

/-- A small model with a matched input, an unmatched input, an audio output
and its producer node. -/
def wModel : Model :=
  { graph := { input := [wTokensInput, wOtherInput], output := [wAudioOutput],
               node := [wGenNode], initializer := [] },
    ir_version := 7, opset := [17] }

/-- A value info whose only dimension is the literal size 0. -/
def wZeroVI : ValueInfo :=
  { name := "mask", ttype := { elem_type := 9, shape := [Dim.value 0] } }

/-- A model whose single input has a literal zero-sized dimension. -/
def wZeroDimModel : Model :=
  { graph := { input := [wZeroVI], output := [wZeroVI], node := [], initializer := [] },
    ir_version := 7, opset := [17] }

/-! ### Claim theorems -/

/-- C3: for every graph and every `L > 0`, `fix_input_shapes` replaces the
shape of every input in the selector set by the literal `[1, L]`, leaves
every other input unchanged, and adds or removes no nodes or
initializers (outputs are also untouched). -/
theorem fix_input_shapes_spec (m : Model) (L : Nat) (hL : 0 < L) :
    (∀ (j : Nat) (v : ValueInfo), m.graph.input[j]? = some v →
        (fix_input_shapes m L).graph.input[j]? =
          some (if isSeqInput v.name then
                  { v with ttype := { v.ttype with
                      shape := [Dim.value 1, Dim.value (L : Int)] } }
                else v)) ∧
    (fix_input_shapes m L).graph.input.length = m.graph.input.length ∧
    (fix_input_shapes m L).graph.node = m.graph.node ∧
    (fix_input_shapes m L).graph.initializer = m.graph.initializer ∧
    (fix_input_shapes m L).graph.output = m.graph.output := by
  refine ⟨?_, by simp [fix_input_shapes], rfl, rfl, rfl⟩
  intro j v hv
  by_cases h : isSeqInput v.name <;>
    simp [fix_input_shapes, List.getElem?_map, hv, fixInp, h]

/-- C3 witness: the spec of `fix_input_shapes`, instantiated at a concrete
model and `L = 4`. -/
theorem fix_input_shapes_spec_w :
    0 < 4 ∧
    ((∀ (j : Nat) (v : ValueInfo), wModel.graph.input[j]? = some v →
        (fix_input_shapes wModel 4).graph.input[j]? =
          some (if isSeqInput v.name then
                  { v with ttype := { v.ttype with
                      shape := [Dim.value 1, Dim.value (4 : Int)] } }
                else v)) ∧
     (fix_input_shapes wModel 4).graph.input.length = wModel.graph.input.length ∧
     (fix_input_shapes wModel 4).graph.node = wModel.graph.node ∧
     (fix_input_shapes wModel 4).graph.initializer = wModel.graph.initializer ∧
     (fix_input_shapes wModel 4).graph.output = wModel.graph.output) :=
  ⟨by decide, fix_input_shapes_spec wModel 4 (by decide)⟩

/-- C8: `fix_input_shapes` is idempotent: a second run with the same `L`
on the already-fixed model is a no-op. -/
theorem fix_input_shapes_idem (m : Model) (L : Nat) (hL : 0 < L) :
    fix_input_shapes (fix_input_shapes m L) L = fix_input_shapes m L := by
  have hf : ∀ v, fixInp L (fixInp L v) = fixInp L v := by
    intro v
    by_cases h : isSeqInput v.name <;> simp [fixInp, h]
  have h2 : m.graph.input.map (fixInp L ∘ fixInp L) = m.graph.input.map (fixInp L) :=
    List.map_congr_left (fun a _ => hf a)
  simp only [fix_input_shapes, List.map_map]
  rw [h2]

/-- C8 witness: idempotence at a concrete model and `L = 4`. -/
theorem fix_input_shapes_idem_w :
    0 < 4 ∧ fix_input_shapes (fix_input_shapes wModel 4) 4 = fix_input_shapes wModel 4 :=
  ⟨by decide, fix_input_shapes_idem wModel 4 (by decide)⟩

/-- C10: `analyze_model` reports a literal zero-sized dimension of any
graph input or output as `-1`, exactly as it reports a fully dynamic
(unset) dimension, because the dimension value is tested for truthiness. -/
theorem analyze_zero_dim_dynamic (m : Model) (j i : Nat) (v : ValueInfo)
    (hd : v.ttype.shape[i]? = some (Dim.value 0)) :
    (m.graph.input[j]? = some v →
      ((analyze_model m).inputs[j]?).map (fun p => p.2.shape[i]?) =
        some (some (ShapeEntry.lit (-1)))) ∧
    (m.graph.output[j]? = some v →
      ((analyze_model m).outputs[j]?).map (fun p => p.2.shape[i]?) =
        some (some (ShapeEntry.lit (-1)))) ∧
    reportDim (Dim.value 0) = reportDim Dim.unset := by
  refine ⟨?_, ?_, rfl⟩ <;> intro hv <;>
    simp [analyze_model, List.getElem?_map, hv, reportValueInfo, reportShape,
      hd, reportDim, Dim.dim_value, Dim.dim_param]

/-- C10 witness: a model whose input and output have a literal zero-sized
dimension, reported as `-1` by `analyze_model`. -/
theorem analyze_zero_dim_dynamic_w :
    wZeroVI.ttype.shape[0]? = some (Dim.value 0) ∧
    ((wZeroDimModel.graph.input[0]? = some wZeroVI →
        ((analyze_model wZeroDimModel).inputs[0]?).map (fun p => p.2.shape[0]?) =
          some (some (ShapeEntry.lit (-1)))) ∧
     (wZeroDimModel.graph.output[0]? = some wZeroVI →
        ((analyze_model wZeroDimModel).outputs[0]?).map (fun p => p.2.shape[0]?) =
          some (some (ShapeEntry.lit (-1)))) ∧
     reportDim (Dim.value 0) = reportDim Dim.unset) :=
  ⟨rfl, analyze_zero_dim_dynamic wZeroDimModel 0 0 wZeroVI rfl⟩

/-! ### Helper lemmas about the structural surgery -/

lemma map_rename_not_mem (orig interm : String) (l : List String) (hl : orig ∉ l) :
    l.map (fun o => if o = orig then interm else o) = l := by
  induction l with
  | nil => rfl
  | cons x xs ih =>
    simp only [List.map_cons]
    rw [if_neg (by rintro rfl; exact hl (List.mem_cons_self x xs)),
      ih (fun hx => hl (List.mem_cons_of_mem x hx))]

lemma find_first_producer (orig : String) (pre post : List Node) (p : Node)
    (hpre : ∀ n ∈ pre, hasOutput orig n = false) (hp : hasOutput orig p = true) :
    (pre ++ p :: post).find? (hasOutput orig) = some p := by
  induction pre with
  | nil => simpa using List.find?_cons_of_pos post hp
  | cons a l ih =>
    have ha := hpre a (List.mem_cons_self a l)
    rw [List.cons_append, List.find?_cons_of_neg _ (by simp [ha])]
    exact ih (fun n hn => hpre n (List.mem_cons_of_mem a hn))

lemma renameFirstProducer_decomp (orig interm : String) (pre post : List Node) (p : Node)
    (hpre : ∀ n ∈ pre, hasOutput orig n = false) (hp : hasOutput orig p = true) :
    renameFirstProducer orig interm (pre ++ p :: post)
      = pre ++ renameOutputs orig interm p :: post := by
  induction pre with
  | nil => simp [renameFirstProducer, hp]
  | cons a l ih =>
    have ha := hpre a (List.mem_cons_self a l)
    simp only [List.cons_append, renameFirstProducer, ha, Bool.false_eq_true, if_false,
      List.cons.injEq, true_and]
    exact ih (fun n hn => hpre n (List.mem_cons_of_mem a hn))

lemma add_output_padding_eq (m : Model) (M : Nat) (orig : String) (p : Node)
    (horig : (selOutputNames m.graph).head? = some orig)
    (hfind : m.graph.node.find? (hasOutput orig) = some p) :
    add_output_padding m M =
      { m with graph :=
        { m.graph with
          node := renameFirstProducer orig (intermediateName orig) m.graph.node
                    ++ [concatNode orig, sliceNode orig]
          initializer := m.graph.initializer
                    ++ [paddingZeros M, sliceStarts, sliceEnds M, sliceAxes]
          output := m.graph.output.map (setOutputShape orig M) } } := by
  unfold add_output_padding
  split
  · rename_i hnone
    rw [hnone] at horig
    exact absurd horig (by simp)
  · rename_i o hsome
    rw [hsome] at horig
    injection horig with ho
    subst ho
    split
    · rename_i hnone2
      rw [hnone2] at hfind
      exact absurd hfind (by simp)
    · rfl

/-! ### More concrete models for counterexamples -/

/-- A model whose only output is named `speech` — not in the selector set. -/
def cexNoMatchModel : Model :=
  { graph := { input := [],
               output := [{ name := "speech",
                            ttype := { elem_type := 1, shape := [Dim.unset] } }],
               node := [{ op_type := "Gen", input := ["x"], output := ["speech"] }],
               initializer := [] },
    ir_version := 7, opset := [17] }

/-- A model with an `audio` output that no node produces. -/
def cexNoProducerModel : Model :=
  { graph := { input := [],
               output := [{ name := "audio",
                            ttype := { elem_type := 1, shape := [Dim.unset] } }],
               node := [{ op_type := "Gen", input := ["x"], output := ["latent"] }],
               initializer := [] },
    ir_version := 7, opset := [17] }

/-- C4 counterexample: on a model with no output in the selector set,
`add_output_padding` raises no `NoTargetOutput` error — it returns the
model unchanged (the Python code prints a warning and `return model`),
so the claimed failure does not occur. -/
theorem add_output_padding_no_match_cex :
    selOutputNames cexNoMatchModel.graph = [] ∧
    add_output_padding cexNoMatchModel 4 = cexNoMatchModel :=
  ⟨by decide, by decide⟩

/-- C4 amended: when no graph output matches the selector set,
`add_output_padding` is a silent no-op returning the model unchanged
(warning print only, no error); in every other case it is a pure total
graph mutation. -/
theorem add_output_padding_no_match (m : Model) (M : Nat)
    (h : selOutputNames m.graph = []) :
    add_output_padding m M = m := by
  unfold add_output_padding
  rw [h]
  rfl

/-- C4 witness: the amended no-op behaviour at a concrete model. -/
theorem add_output_padding_no_match_w :
    selOutputNames cexNoMatchModel.graph = [] ∧
    add_output_padding cexNoMatchModel 6 = cexNoMatchModel :=
  ⟨by decide, add_output_padding_no_match cexNoMatchModel 6 (by decide)⟩

/-- C5 counterexample: on a model whose `audio` output has no producer
node, `add_output_padding` raises no fatal `ProducerNotFound` condition —
it returns the model unchanged (warning print only), and no candidate
set is reported. -/
theorem add_output_padding_no_producer_cex :
    (selOutputNames cexNoProducerModel.graph).head? = some "audio" ∧
    cexNoProducerModel.graph.node.find? (hasOutput "audio") = none ∧
    add_output_padding cexNoProducerModel 4 = cexNoProducerModel :=
  ⟨by decide, by decide, by decide⟩

/-- C5 amended: when the first selector-matched output has no producer
node, `add_output_padding` is a silent no-op returning the model
unchanged (warning print only, not fatal); only the first matched name is
considered and no candidate list is reported. -/
theorem add_output_padding_no_producer (m : Model) (M : Nat) (orig : String)
    (horig : (selOutputNames m.graph).head? = some orig)
    (hfind : m.graph.node.find? (hasOutput orig) = none) :
    add_output_padding m M = m := by
  unfold add_output_padding
  split
  · rfl
  · rename_i o hsome
    rw [hsome] at horig
    injection horig with ho
    subst ho
    split
    · rfl
    · rename_i val hsome2
      rw [hsome2] at hfind
      exact absurd hfind (by simp)

/-- C5 witness: the amended no-op behaviour at a concrete model. -/
theorem add_output_padding_no_producer_w :
    (selOutputNames cexNoProducerModel.graph).head? = some "audio" ∧
    cexNoProducerModel.graph.node.find? (hasOutput "audio") = none ∧
    add_output_padding cexNoProducerModel 6 = cexNoProducerModel :=
  ⟨by decide, by decide,
    add_output_padding_no_producer cexNoProducerModel 6 "audio" (by decide) (by decide)⟩

/-- C6: in a non-analyze run of `main` that reaches the mutation stage,
the transformed model is written iff `validate_model` (abstracted as
`check`, its core being the external ONNX checker) accepts it; on
rejection nothing is written and `main` returns the non-zero value 1. -/
theorem main_writes_iff_validates (check : Model → Bool) (m : Model)
    (L M : Nat) (pad : Bool) :
    ((main_run false true check m L M pad).1.isSome = true ↔
      check (transform m L M pad) = true) ∧
    (check (transform m L M pad) = false →
      main_run false true check m L M pad = (none, some 1)) ∧
    (check (transform m L M pad) = true →
      main_run false true check m L M pad = (some (transform m L M pad), none)) := by
  by_cases h : check (transform m L M pad) = true <;>
    simp [main_run, h]

/-- C7: the rewrite pipeline is deterministic — equal input models under
equal configuration produce equal output models (all stages are pure
functions of the model and the configuration). -/
theorem transform_deterministic (m1 m2 : Model) (L M : Nat) (pad : Bool)
    (h : m1 = m2) :
    transform m1 L M pad = transform m2 L M pad := by rw [h]

/-- C7 witness: determinism at a concrete model and configuration. -/
theorem transform_deterministic_w :
    wModel = wModel ∧ transform wModel 4 2 true = transform wModel 4 2 true :=
  ⟨rfl, transform_deterministic wModel wModel 4 2 true rfl⟩

/-- C1: in structural mode, when an output matches the selector set and a
producer exists, `add_output_padding` (1) renames the producer's matching
output slots from the original name to `<original>_unpadded` leaving its
other slots unchanged, (2) appends a `Concat` node over the intermediate
tensor and a zero-filled length-`M` constant along axis 0, and (3)
appends a `Slice` node taking elements `0..M` of the concatenation along
axis 0 whose output is the original name, which remains a declared graph
output. -/
theorem add_output_padding_structural (m : Model) (M : Nat) (orig : String)
    (pre post : List Node) (p : Node)
    (horig : (selOutputNames m.graph).head? = some orig)
    (hnodes : m.graph.node = pre ++ p :: post)
    (hpre : ∀ n ∈ pre, hasOutput orig n = false)
    (hp : hasOutput orig p = true) :
    (add_output_padding m M).graph.node =
      (pre ++ { p with output := p.output.map (fun o => if o = orig then intermediateName orig else o) } :: post)
        ++ [concatNode orig, sliceNode orig] ∧
    (concatNode orig).input = [intermediateName orig, (paddingZeros M).name] ∧
    (concatNode orig).attrs = [("axis", 0)] ∧
    (paddingZeros M).float_data = List.replicate M 0 ∧
    (add_output_padding m M).graph.initializer =
      m.graph.initializer ++ [paddingZeros M, sliceStarts, sliceEnds M, sliceAxes] ∧
    (sliceNode orig).input =
      [concatName orig, sliceStarts.name, (sliceEnds M).name, sliceAxes.name] ∧
    sliceStarts.int64_data = [0] ∧
    (sliceEnds M).int64_data = [(M : Int)] ∧
    sliceAxes.int64_data = [0] ∧
    (sliceNode orig).output = [orig] ∧
    (add_output_padding m M).graph.output.map ValueInfo.name =
      m.graph.output.map ValueInfo.name := by
  have hfind : m.graph.node.find? (hasOutput orig) = some p := by
    rw [hnodes]; exact find_first_producer orig pre post p hpre hp
  rw [add_output_padding_eq m M orig p horig hfind]
  refine ⟨?_, rfl, rfl, rfl, rfl, rfl, rfl, rfl, rfl, rfl, ?_⟩
  · rw [hnodes, renameFirstProducer_decomp orig (intermediateName orig) pre post p hpre hp]
    rfl
  · rw [List.map_map]
    apply List.map_congr_left
    intro v _
    by_cases h : v.name = orig <;> simp [setOutputShape, h]

/-- C1 witness: the structural surgery instantiated at a concrete model
with `M = 2` and designated output `audio`. -/
theorem add_output_padding_structural_w :
    (∀ n ∈ ([] : List Node), hasOutput "audio" n = false) ∧
    hasOutput "audio" wGenNode = true ∧
    ((add_output_padding wModel 2).graph.node =
      ([] ++ { wGenNode with output := wGenNode.output.map (fun o => if o = "audio" then intermediateName "audio" else o) } :: [])
        ++ [concatNode "audio", sliceNode "audio"] ∧
     (concatNode "audio").input = [intermediateName "audio", (paddingZeros 2).name] ∧
     (concatNode "audio").attrs = [("axis", 0)] ∧
     (paddingZeros 2).float_data = List.replicate 2 0 ∧
     (add_output_padding wModel 2).graph.initializer =
       wModel.graph.initializer ++ [paddingZeros 2, sliceStarts, sliceEnds 2, sliceAxes] ∧
     (sliceNode "audio").input =
       [concatName "audio", sliceStarts.name, (sliceEnds 2).name, sliceAxes.name] ∧
     sliceStarts.int64_data = [0] ∧
     (sliceEnds 2).int64_data = [(2 : Int)] ∧
     sliceAxes.int64_data = [0] ∧
     (sliceNode "audio").output = ["audio"] ∧
     (add_output_padding wModel 2).graph.output.map ValueInfo.name =
       wModel.graph.output.map ValueInfo.name) :=
  ⟨by simp, by decide,
    add_output_padding_structural wModel 2 "audio" [] [] wGenNode
      (by decide) rfl (by simp) (by decide)⟩

/-- C2: on graphs with a selector-matched output and a producer,
declarative mode changes neither node count nor initializer count, while
structural mode appends exactly the zero-fill initializer plus the three
int64 slice-bound constants, appends exactly two nodes (a `Concat` and a
`Slice`), and renames exactly one existing node output slot. -/
theorem mode_frame_effects (m : Model) (M : Nat) (orig : String)
    (pre post : List Node) (p : Node) (a b : List String)
    (horig : (selOutputNames m.graph).head? = some orig)
    (hnodes : m.graph.node = pre ++ p :: post)
    (hpre : ∀ n ∈ pre, hasOutput orig n = false)
    (hout : p.output = a ++ orig :: b)
    (ha : orig ∉ a) (hb : orig ∉ b) :
    (fix_output_shapes m M).graph.node = m.graph.node ∧
    (fix_output_shapes m M).graph.initializer = m.graph.initializer ∧
    (add_output_padding m M).graph.node.length = m.graph.node.length + 2 ∧
    (add_output_padding m M).graph.initializer =
      m.graph.initializer ++ [paddingZeros M, sliceStarts, sliceEnds M, sliceAxes] ∧
    (paddingZeros M).elem_type = 1 ∧
    (paddingZeros M).float_data = List.replicate M 0 ∧
    sliceStarts.elem_type = 7 ∧
    (sliceEnds M).elem_type = 7 ∧
    sliceAxes.elem_type = 7 ∧
    (add_output_padding m M).graph.node =
      (pre ++ { p with output := a ++ intermediateName orig :: b } :: post)
        ++ [concatNode orig, sliceNode orig] ∧
    (concatNode orig).op_type = "Concat" ∧
    (sliceNode orig).op_type = "Slice" := by
  have hp : hasOutput orig p = true := by simp [hasOutput, hout]
  have hfind : m.graph.node.find? (hasOutput orig) = some p := by
    rw [hnodes]; exact find_first_producer orig pre post p hpre hp
  have hmap : p.output.map (fun o => if o = orig then intermediateName orig else o)
      = a ++ intermediateName orig :: b := by
    rw [hout, List.map_append, List.map_cons, map_rename_not_mem orig _ a ha,
      map_rename_not_mem orig _ b hb, if_pos rfl]
  have hren : renameOutputs orig (intermediateName orig) p
      = { p with output := a ++ intermediateName orig :: b } := by
    unfold renameOutputs; rw [hmap]
  rw [add_output_padding_eq m M orig p horig hfind]
  refine ⟨rfl, rfl, ?_, rfl, rfl, rfl, rfl, rfl, rfl, ?_, rfl, rfl⟩
  · rw [hnodes, renameFirstProducer_decomp orig (intermediateName orig) pre post p hpre hp]
    simp only [List.length_append, List.length_cons, List.length_nil]
  · rw [hnodes, renameFirstProducer_decomp orig (intermediateName orig) pre post p hpre hp,
      hren]

/-- C2 witness: the frame effects instantiated at a concrete model with
`M = 2` and designated output `audio`. -/
theorem mode_frame_effects_w :
    wGenNode.output = [] ++ "audio" :: [] ∧
    ((fix_output_shapes wModel 2).graph.node = wModel.graph.node ∧
     (fix_output_shapes wModel 2).graph.initializer = wModel.graph.initializer ∧
     (add_output_padding wModel 2).graph.node.length = wModel.graph.node.length + 2 ∧
     (add_output_padding wModel 2).graph.initializer =
       wModel.graph.initializer ++ [paddingZeros 2, sliceStarts, sliceEnds 2, sliceAxes] ∧
     (paddingZeros 2).elem_type = 1 ∧
     (paddingZeros 2).float_data = List.replicate 2 0 ∧
     sliceStarts.elem_type = 7 ∧
     (sliceEnds 2).elem_type = 7 ∧
     sliceAxes.elem_type = 7 ∧
     (add_output_padding wModel 2).graph.node =
       ([] ++ { wGenNode with output := [] ++ intermediateName "audio" :: [] } :: [])
         ++ [concatNode "audio", sliceNode "audio"] ∧
     (concatNode "audio").op_type = "Concat" ∧
     (sliceNode "audio").op_type = "Slice") :=
  ⟨rfl,
    mode_frame_effects wModel 2 "audio" [] [] wGenNode [] []
      (by decide) rfl (by simp) rfl (by simp) (by simp)⟩

/-- C9: after the output rewrite with target length `M` (declarative
`fix_output_shapes`, or structural `add_output_padding` when a matched
output with a producer exists), the designated output's declared shape is
exactly the single literal dimension `[M]`. -/
theorem output_shape_is_M (m : Model) (M : Nat) (hM : 0 < M) (orig : String) (p : Node)
    (horig : (selOutputNames m.graph).head? = some orig)
    (hfind : m.graph.node.find? (hasOutput orig) = some p) :
    (∀ (j : Nat) (v : ValueInfo), (fix_output_shapes m M).graph.output[j]? = some v →
        isAudioOutput v.name = true → v.ttype.shape = [Dim.value (M : Int)]) ∧
    (∀ (j : Nat) (v : ValueInfo), (add_output_padding m M).graph.output[j]? = some v →
        v.name = orig → v.ttype.shape = [Dim.value (M : Int)]) := by
  constructor
  · intro j v hv hname
    rw [show (fix_output_shapes m M).graph.output
          = m.graph.output.map (declFixOut M) from rfl, List.getElem?_map] at hv
    cases ho : m.graph.output[j]? with
    | none => rw [ho] at hv; cases hv
    | some o =>
      rw [ho] at hv
      simp only [Option.map_some'] at hv
      injection hv with hv
      by_cases h : isAudioOutput o.name = true
      · rw [← hv]; simp [declFixOut, h]
      · exfalso
        rw [← hv] at hname
        simp [declFixOut, h] at hname
  · intro j v hv hname
    rw [add_output_padding_eq m M orig p horig hfind] at hv
    rw [show ({ m with graph := { m.graph with
          node := renameFirstProducer orig (intermediateName orig) m.graph.node
                    ++ [concatNode orig, sliceNode orig]
          initializer := m.graph.initializer
                    ++ [paddingZeros M, sliceStarts, sliceEnds M, sliceAxes]
          output := m.graph.output.map (setOutputShape orig M) } } : Model).graph.output
        = m.graph.output.map (setOutputShape orig M) from rfl, List.getElem?_map] at hv
    cases ho : m.graph.output[j]? with
    | none => rw [ho] at hv; cases hv
    | some o =>
      rw [ho] at hv
      simp only [Option.map_some'] at hv
      injection hv with hv
      by_cases h : o.name = orig
      · rw [← hv]; simp [setOutputShape, h]
      · exfalso
        rw [← hv] at hname
        simp [setOutputShape, h] at hname

/-- C9 witness: the output-shape contract instantiated at a concrete
model with `M = 2` and designated output `audio`. -/
theorem output_shape_is_M_w :
    0 < 2 ∧
    ((∀ (j : Nat) (v : ValueInfo), (fix_output_shapes wModel 2).graph.output[j]? = some v →
        isAudioOutput v.name = true → v.ttype.shape = [Dim.value (2 : Int)]) ∧
     (∀ (j : Nat) (v : ValueInfo), (add_output_padding wModel 2).graph.output[j]? = some v →
        v.name = "audio" → v.ttype.shape = [Dim.value (2 : Int)])) :=
  ⟨by decide,
    output_shape_is_M wModel 2 (by decide) "audio" wGenNode (by decide) (by decide)⟩

/-- C6 witness: the write-iff-validate behaviour at a concrete model,
configuration and an accepting checker. -/
theorem main_writes_iff_validates_w :
    (((main_run false true (fun _ => true) wModel 4 2 true).1.isSome = true ↔
      (fun _ => true) (transform wModel 4 2 true) = true) ∧
     ((fun _ => true) (transform wModel 4 2 true) = false →
      main_run false true (fun _ => true) wModel 4 2 true = (none, some 1)) ∧
     ((fun _ => true) (transform wModel 4 2 true) = true →
      main_run false true (fun _ => true) wModel 4 2 true =
        (some (transform wModel 4 2 true), none))) :=
  main_writes_iff_validates (fun _ => true) wModel 4 2 true
